import Mathlib

/-!
Shallow embedding of `src/simple_server.py`: a minimal HTTP server for the
Solana Trading Platform front-end.  The handler class `SolanaHandler`
overrides `do_GET`, which routes a request path either to the API
dispatcher `handle_api` or to static-file serving with an SPA fallback.

Modelling conventions:
* The filesystem is a function from path strings to a result of opening
  that path for reading: found with contents, `FileNotFoundError`, or any
  other `OSError` (e.g. `PermissionError`).
* The environment is a function from variable names to membership
  (`name in os.environ` checks presence, not value).
* The wall clock is a broken-down UTC time record, as `time.gmtime()`
  returns; `time.strftime` with the fixed format string is embedded as
  `strftimeGm`.
* A handler run is a sequence of emitted events (`send_response`,
  `send_header`, `end_headers`, `wfile.write`), or an escaped Python
  exception (`Except.error`) when the code raises without catching.
-/

/-- Result of `open(path, 'rb')` followed by `read()`: the file's bytes,
a `FileNotFoundError`, or another filesystem error such as
`PermissionError` (bytes are modelled as a `String`). -/
inductive FileResult where
  | found (contents : String)
  | notFound
  | ioError
deriving DecidableEq, Repr

/-- The filesystem: what opening each path yields. -/
def FS : Type := String → FileResult

/-- The process environment: presence of each variable name
(`'NAME' in os.environ`). -/
def Env : Type := String → Bool

/-- Broken-down UTC time, as returned by `time.gmtime()`. -/
structure Tm where
  year : Nat
  month : Nat
  day : Nat
  hour : Nat
  minute : Nat
  sec : Nat
deriving DecidableEq, Repr

/-- Events a handler emits on the HTTP connection, in order. -/
inductive Ev where
  | status (code : Nat)
  | header (name value : String)
  | endHeaders
  | write (body : String)
deriving DecidableEq, Repr

/-- A Python exception escaping the handler uncaught. -/
inductive PyErr where
  | ioError
deriving DecidableEq, Repr

/-- Everything of `s` strictly before the first occurrence of `stop`. -/
def stripAfter (stop : Char) (s : String) : String :=
  String.mk (s.data.takeWhile (fun c => c ≠ stop))

/-- The `path` component of `urlparse(raw)`: the fragment (after the first
hash) is split off first, then the query string (after the first question
mark) is discarded. -/
def urlparsePath (raw : String) : String :=
  stripAfter '?' (stripAfter '#' raw)

/-- Python `s.startswith(pre)`. -/
def startswith (s pre : String) : Bool :=
  pre.data.isPrefixOf s.data

/-- Python `s.endswith(suf)`. -/
def endswith (s suf : String) : Bool :=
  suf.data.isSuffixOf s.data

/-- Content type chosen by `do_GET` from the file extension, exactly the
chain of `path.endswith` tests in the source. -/
def contentTypeFor (path : String) : String :=
  if endswith path ".html" then "text/html"
  else if endswith path ".css" then "text/css"
  else if endswith path ".js" then "text/javascript"
  else if endswith path ".json" then "application/json"
  else if endswith path ".jpg" || endswith path ".jpeg" then "image/jpeg"
  else if endswith path ".png" then "image/png"
  else "application/octet-stream"

/-- JSON values as built by the handlers.  Number literals appear in the
source either as Python ints or as floats with two decimal digits; the
latter are stored as hundredths (`jnum 92` is the literal `0.92`). -/
inductive Json where
  | jbool (b : Bool)
  | jint (n : Nat)
  | jnum (hundredths : Nat)
  | jstr (s : String)
  | jarr (xs : List Json)
  | jobj (fields : List (String × Json))
deriving Repr

/-- How `json.dumps` escapes one character of a string (only escapes that
can arise from this program's literals are relevant; plain ASCII passes
through unchanged). -/
def escChar (c : Char) : String :=
  if c = '"' then "\\\""
  else if c = '\\' then "\\\\"
  else if c = '\n' then "\\n"
  else if c = '\t' then "\\t"
  else if c = '\r' then "\\r"
  else String.singleton c

/-- `json.dumps` escaping applied to a whole string. -/
def jsonEscape (s : String) : String :=
  String.join (s.data.map escChar)

/-- `repr` of a two-decimal float literal stored as hundredths:
`renderNum 92 = "0.92"`, `renderNum 2345 = "23.45"`. -/
def renderNum (h : Nat) : String :=
  let w := h / 100
  let f := h % 100
  toString w ++ "." ++
    (if f % 10 = 0 then toString (f / 10)
     else if f < 10 then "0" ++ toString f
     else toString f)

mutual

/-- `json.dumps` with its default separators (", " between items,
": " between a key and its value). -/
def Json.dumps : Json → String
  | .jbool true => "true"
  | .jbool false => "false"
  | .jint n => toString n
  | .jnum h => renderNum h
  | .jstr s => "\"" ++ jsonEscape s ++ "\""
  | .jarr xs => "[" ++ Json.dumpsList xs ++ "]"
  | .jobj fs => "\x7b" ++ Json.dumpsFields fs ++ "\x7d"

/-- Array elements joined by ", ". -/
def Json.dumpsList : List Json → String
  | [] => ""
  | [x] => Json.dumps x
  | x :: y :: xs => Json.dumps x ++ ", " ++ Json.dumpsList (y :: xs)

/-- Object members rendered as `"key": value` joined by ", ". -/
def Json.dumpsFields : List (String × Json) → String
  | [] => ""
  | [f] => "\"" ++ jsonEscape f.1 ++ "\": " ++ Json.dumps f.2
  | f :: g :: fs =>
      "\"" ++ jsonEscape f.1 ++ "\": " ++ Json.dumps f.2 ++ ", " ++
        Json.dumpsFields (g :: fs)

end

/-- A natural number padded to two digits, as `strftime` field `%M` etc. -/
def pad2 (n : Nat) : String :=
  if n < 10 then "0" ++ toString n else toString n

/-- A natural number padded to four digits, as `strftime` field `%Y`. -/
def pad4 (n : Nat) : String :=
  if n < 10 then "000" ++ toString n
  else if n < 100 then "00" ++ toString n
  else if n < 1000 then "0" ++ toString n
  else toString n

/-- `time.strftime('%Y-%m-%dT%H:%M:%S.000Z', time.gmtime())`: the current
UTC time with the sub-second digits emitted as the literal characters
`000`. -/
def strftimeGm (t : Tm) : String :=
  pad4 t.year ++ "-" ++ pad2 t.month ++ "-" ++ pad2 t.day ++ "T" ++
    pad2 t.hour ++ ":" ++ pad2 t.minute ++ ":" ++ pad2 t.sec ++ ".000Z"

/-- Body of `GET /api/health`. -/
def healthJson : Json :=
  .jobj [("status", .jstr "ok"),
         ("message", .jstr "Solana Trading Platform server is running")]

/-- Body of `GET /api/solana/status` given the environment and the
formatted current time.  `apiKey` is `has_api_key or True` verbatim. -/
def statusJson (env : Env) (ts : String) : Json :=
  .jobj [("status", .jstr "operational"),
         ("customRpc", .jbool (env "INSTANT_NODES_RPC_URL")),
         ("apiKey", .jbool (env "SOLANA_RPC_API_KEY" || true)),
         ("network", .jstr "mainnet-beta"),
         ("timestamp", .jstr ts)]

/-- First hardcoded agent record, with the formatted current time as
`metrics.lastExecution`. -/
def agent1 (ts : String) : Json :=
  .jobj [("id", .jstr "hyperion-1"),
         ("name", .jstr "Hyperion Flash Arbitrage"),
         ("type", .jstr "hyperion"),
         ("status", .jstr "idle"),
         ("active", .jbool true),
         ("wallets", .jobj
           [("trading", .jstr "HN7cABqLq46Es1jh92dQQisAq662SmxELLLsHHe5tHE2"),
            ("profit", .jstr "2xNwwA8DmH5AsLhBjevvkPzTnpvH6Zz4pQ7bvQD9rtkf"),
            ("fee", .jstr "4z1PvJnKZcnLSJYGRNdZn7eYAUkKRiUJJW6Kcmt2hiEX"),
            ("stealth", .jarr
              [.jstr "3Y7T8oBSHUb81uetPjjzSBdGe6RN2rTZ3NEN1xQ6mVi4"])]),
         ("metrics", .jobj
           [("totalExecutions", .jint 157),
            ("successRate", .jnum 92),
            ("totalProfit", .jnum 2345),
            ("lastExecution", .jstr ts)])]

/-- Second hardcoded agent record, with the formatted current time as
`metrics.lastExecution`. -/
def agent2 (ts : String) : Json :=
  .jobj [("id", .jstr "quantum-omega-1"),
         ("name", .jstr "Quantum Omega Sniper"),
         ("type", .jstr "quantum_omega"),
         ("status", .jstr "idle"),
         ("active", .jbool true),
         ("wallets", .jobj
           [("trading", .jstr "5FHwkrdxD5oNU3DwPWbxLQkd5Za4rQXQDkxMZvHzLkSr"),
            ("profit", .jstr "7XvgVxyh5cQeb9PdiUJZBbyYAqNz8JfwbFGPn6HvhNxW"),
            ("fee", .jstr "3WPBgP3Mcv2XTf6Sq8QNLegzVMhGp4w1mYhRK5o3bzJ7"),
            ("stealth", .jarr
              [.jstr "3Y7T8oBSHUb81uetPjjzSBdGe6RN2rTZ3NEN1xQ6mVi4",
               .jstr "9Y7T8oBSHUb81uetPjjzSBdGe6RN2rTZ3NEN1xQ6mVqW"])]),
         ("metrics", .jobj
           [("totalExecutions", .jint 82),
            ("successRate", .jnum 88),
            ("totalProfit", .jnum 1476),
            ("lastExecution", .jstr ts)])]

/-- The list serialized by `GET /api/agents`. -/
def agentsList (ts : String) : List Json := [agent1 ts, agent2 ts]

/-- Body of the API 404 branch. -/
def apiNotFoundJson : Json :=
  .jobj [("error", .jstr "API endpoint not found")]

/-- `SolanaHandler.handle_api`: sets the JSON content type first, then
matches the path exactly against the three endpoints, defaulting
to 404. -/
def handle_api (env : Env) (t : Tm) (path : String) : List Ev :=
  Ev.header "Content-type" "application/json" ::
    (if path = "/api/health" then
      [Ev.status 200, Ev.endHeaders, Ev.write (Json.dumps healthJson)]
    else if path = "/api/solana/status" then
      [Ev.status 200, Ev.endHeaders,
       Ev.write (Json.dumps (statusJson env (strftimeGm t)))]
    else if path = "/api/agents" then
      [Ev.status 200, Ev.endHeaders,
       Ev.write (Json.dumps (.jarr (agentsList (strftimeGm t))))]
    else
      [Ev.status 404, Ev.endHeaders, Ev.write (Json.dumps apiNotFoundJson)])

/-- The root rewrite of `do_GET`: `if path == '/': path = '/index.html'`. -/
def rewriteRoot (path : String) : String :=
  if path = "/" then "/index.html" else path

/-- The file name `do_GET` opens for a static path: the literal
concatenation `'.' + path`, with no normalization of any kind. -/
def openTarget (path : String) : String :=
  "." ++ path

/-- `SolanaHandler.do_GET`: parse the path discarding the query string,
dispatch `/api/` paths to `handle_api`, otherwise serve `'.' + path`
falling back to `./index.html` and then a literal 404 page.  Only
`FileNotFoundError` is caught; any other filesystem error escapes as an
uncaught exception (`Except.error`). -/
def do_GET (fs : FS) (env : Env) (t : Tm) (raw : String) :
    Except PyErr (List Ev) :=
  let path := urlparsePath raw
  if startswith path "/api/" then
    Except.ok (handle_api env t path)
  else
    let path2 := rewriteRoot path
    match fs (openTarget path2) with
    | FileResult.found contents =>
        Except.ok [Ev.status 200,
                   Ev.header "Content-type" (contentTypeFor path2),
                   Ev.endHeaders, Ev.write contents]
    | FileResult.ioError => Except.error PyErr.ioError
    | FileResult.notFound =>
        match fs "./index.html" with
        | FileResult.found contents =>
            Except.ok [Ev.status 200, Ev.header "Content-type" "text/html",
                       Ev.endHeaders, Ev.write contents]
        | FileResult.ioError => Except.error PyErr.ioError
        | FileResult.notFound =>
            Except.ok [Ev.status 404, Ev.header "Content-type" "text/html",
                       Ev.endHeaders, Ev.write "404 Not Found"]

/-- The extension table of spec section 4.1.1, modelled from the spec:
an ordered mapping from suffix to media type, the response content type
being the entry whose suffix matches, with a default. -/
def ctTable : List (String × String) :=
  [(".html", "text/html"), (".css", "text/css"), (".js", "text/javascript"),
   (".json", "application/json"), (".jpg", "image/jpeg"),
   (".jpeg", "image/jpeg"), (".png", "image/png")]

/-- Modelled from the spec: content type chosen by looking the path's
suffix up in `ctTable`, defaulting to `application/octet-stream`.  To be
compared with `contentTypeFor`, the chain from the source. -/
def specContentType (p : String) : String :=
  match ctTable.find? (fun e => endswith p e.1) with
  | some e => e.2
  | none => "application/octet-stream"

/-- Splits a character list at every slash, accumulating the current
segment in reverse. -/
def splitSlashAux : List Char → List Char → List String
  | [], acc => [String.mk acc.reverse]
  | c :: cs, acc =>
      if c = '/' then String.mk acc.reverse :: splitSlashAux cs []
      else splitSlashAux cs (c :: acc)

/-- The slash-separated segments of a path string. -/
def splitSlash (s : String) : List String :=
  splitSlashAux s.data []

/-- Walks the segments of a relative path keeping the current directory
depth; returns `true` when a `..` segment ascends above the starting
directory. -/
def escapesRootAux : List String → Nat → Bool
  | [], _ => false
  | seg :: rest, d =>
      if seg = ".." then
        (if d = 0 then true else escapesRootAux rest (d - 1))
      else if seg = "." ∨ seg = "" then escapesRootAux rest d
      else escapesRootAux rest (d + 1)

/-- Whether resolving the relative path `s` ever leaves the directory it
starts from (the served root). -/
def escapesRoot (s : String) : Bool :=
  escapesRootAux (splitSlash s) 0

/-- The members of a JSON object (empty for non-objects). -/
def Json.fields : Json → List (String × Json)
  | .jobj fs => fs
  | _ => []

/-- The rational value of a JSON number (`jnum` stores hundredths). -/
def Json.ratOf : Json → ℚ
  | .jint n => (n : ℚ)
  | .jnum h => (h : ℚ) / 100
  | _ => 0

/-- Field `k` of an agent record's `metrics` object. -/
def metricsField (a : Json) (k : String) : Option Json :=
  (List.lookup "metrics" a.fields).bind (fun m => List.lookup k m.fields)

/-- An agent record's `metrics.successRate` as a rational. -/
def successRateOf (a : Json) : Option ℚ :=
  (metricsField a "successRate").map Json.ratOf

/-- The character list underlying a string built from a character list. -/
theorem takeWhile_mk_data (l : List Char) : (String.mk l).data = l := rfl

/-- Taking while `p` and then while `q` is idempotent as a pair. -/
theorem tw_pair_idem (p q : Char → Bool) (l : List Char) :
    (((l.takeWhile p).takeWhile q).takeWhile p).takeWhile q =
      (l.takeWhile p).takeWhile q := by
  have h1 : ∀ x ∈ (l.takeWhile p).takeWhile q, p x := by
    intro x hx
    exact List.mem_takeWhile_imp (List.takeWhile_subset _ hx)
  have h2 : ∀ x ∈ (l.takeWhile p).takeWhile q, q x := by
    intro x hx
    exact List.mem_takeWhile_imp hx
  rw [List.takeWhile_eq_self_iff.mpr h1, List.takeWhile_eq_self_iff.mpr h2]

/-- Discarding the query string is idempotent: parsing an already parsed
path changes nothing. -/
theorem urlparsePath_idempotent (s : String) :
    urlparsePath (urlparsePath s) = urlparsePath s := by
  unfold urlparsePath stripAfter
  congr 1
  simp only [takeWhile_mk_data]
  exact tw_pair_idem _ _ s.data

/-- Helper: the content-type chain of the source agrees pointwise with the
extension table of the spec. -/
theorem ct_refines (p : String) : contentTypeFor p = specContentType p := by
  unfold contentTypeFor specContentType ctTable
  cases h1 : endswith p ".html" <;> cases h2 : endswith p ".css" <;>
    cases h3 : endswith p ".js" <;> cases h4 : endswith p ".json" <;>
    cases h5 : endswith p ".jpg" <;> cases h6 : endswith p ".jpeg" <;>
    cases h7 : endswith p ".png" <;>
    simp [List.find?, h1, h2, h3, h4, h5, h6, h7]

/-- C1: routing.  The query string is discarded before routing (re-parsing
the parsed path changes nothing, so the response depends on the raw path
only through its parsed form); a parsed path that begins with `/api/` is
dispatched to the API dispatcher for every filesystem, so static serving
is never attempted; and a GET of `/` produces the same response as a GET
of `/index.html`. -/
theorem c1_routing (fs : FS) (env : Env) (t : Tm) (raw : String) :
    do_GET fs env t raw = do_GET fs env t (urlparsePath raw) ∧
    (startswith (urlparsePath raw) "/api/" = true →
      do_GET fs env t raw = Except.ok (handle_api env t (urlparsePath raw))) ∧
    do_GET fs env t "/" = do_GET fs env t "/index.html" := by
  refine ⟨?_, ?_, rfl⟩
  · simp only [do_GET, urlparsePath_idempotent]
  · intro h
    simp only [do_GET, h, if_true]

/-- Witness for C1 at the concrete request `/api/health?x=1`. -/
theorem c1_routing_witness :
    do_GET (fun _ => FileResult.notFound) (fun _ => false) ⟨2025, 1, 1, 0, 0, 0⟩
      "/api/health?x=1" =
      Except.ok (handle_api (fun _ => false) ⟨2025, 1, 1, 0, 0, 0⟩ "/api/health") :=
  (c1_routing (fun _ => FileResult.notFound) (fun _ => false) ⟨2025, 1, 1, 0, 0, 0⟩
    "/api/health?x=1").2.1 rfl

/-- C2: static-asset success path.  For every non-`/api/` path (after the
root rewrite) whose file exists, the response is 200, its body is the
file's exact bytes, and its content type comes from the fixed
case-sensitive suffix table (the chain from the source agrees with the
spec's table everywhere). -/
theorem c2_static (fs : FS) (env : Env) (t : Tm) (raw : String) (c : String)
    (hna : startswith (urlparsePath raw) "/api/" = false)
    (hf : fs (openTarget (rewriteRoot (urlparsePath raw))) = FileResult.found c) :
    do_GET fs env t raw =
      Except.ok [Ev.status 200,
        Ev.header "Content-type" (contentTypeFor (rewriteRoot (urlparsePath raw))),
        Ev.endHeaders, Ev.write c] ∧
    (∀ p, contentTypeFor p = specContentType p) := by
  refine ⟨?_, ct_refines⟩
  simp only [do_GET, hna, Bool.false_eq_true, if_false, hf]

/-- Witness for C2 at the concrete request `/style.css?v=2`. -/
theorem c2_static_witness :
    do_GET (fun p => if p = "./style.css" then FileResult.found "css-bytes"
                     else FileResult.notFound)
      (fun _ => false) ⟨2025, 1, 1, 0, 0, 0⟩ "/style.css?v=2" =
      Except.ok [Ev.status 200, Ev.header "Content-type" "text/css",
                 Ev.endHeaders, Ev.write "css-bytes"] :=
  (c2_static (fun p => if p = "./style.css" then FileResult.found "css-bytes"
                       else FileResult.notFound)
    (fun _ => false) ⟨2025, 1, 1, 0, 0, 0⟩ "/style.css?v=2" "css-bytes" rfl rfl).1

/-- C3: SPA fallback chain.  For every non-`/api/` path whose file is
absent, the server serves `./index.html` with 200 and `text/html` when it
exists, and otherwise responds 404 with `text/html` and the exact body
`404 Not Found`. -/
theorem c3_fallback (fs : FS) (env : Env) (t : Tm) (raw : String)
    (hna : startswith (urlparsePath raw) "/api/" = false)
    (habs : fs (openTarget (rewriteRoot (urlparsePath raw))) = FileResult.notFound) :
    (∀ c, fs "./index.html" = FileResult.found c →
      do_GET fs env t raw =
        Except.ok [Ev.status 200, Ev.header "Content-type" "text/html",
                   Ev.endHeaders, Ev.write c]) ∧
    (fs "./index.html" = FileResult.notFound →
      do_GET fs env t raw =
        Except.ok [Ev.status 404, Ev.header "Content-type" "text/html",
                   Ev.endHeaders, Ev.write "404 Not Found"]) := by
  constructor
  · intro c hidx
    simp only [do_GET, hna, Bool.false_eq_true, if_false, habs, hidx]
  · intro hidx
    simp only [do_GET, hna, Bool.false_eq_true, if_false, habs, hidx]

/-- Witness for C3 at the concrete request `/missing` with only
`./index.html` present. -/
theorem c3_fallback_witness :
    do_GET (fun p => if p = "./index.html" then FileResult.found "HOME"
                     else FileResult.notFound)
      (fun _ => false) ⟨2025, 1, 1, 0, 0, 0⟩ "/missing" =
      Except.ok [Ev.status 200, Ev.header "Content-type" "text/html",
                 Ev.endHeaders, Ev.write "HOME"] :=
  (c3_fallback (fun p => if p = "./index.html" then FileResult.found "HOME"
                         else FileResult.notFound)
    (fun _ => false) ⟨2025, 1, 1, 0, 0, 0⟩ "/missing" rfl rfl).1 "HOME" rfl

/-- C4: the `/api/solana/status` body has `customRpc` true iff
`INSTANT_NODES_RPC_URL` is present, `apiKey` true unconditionally
(the `or True` default), with `status` `operational` and `network`
`mainnet-beta`, for every environment. -/
theorem c4_status (env : Env) (t : Tm) :
    handle_api env t "/api/solana/status" =
      [Ev.header "Content-type" "application/json", Ev.status 200, Ev.endHeaders,
       Ev.write (Json.dumps (statusJson env (strftimeGm t)))] ∧
    List.lookup "customRpc" (Json.fields (statusJson env (strftimeGm t))) =
      some (.jbool (env "INSTANT_NODES_RPC_URL")) ∧
    (env "INSTANT_NODES_RPC_URL" = true ↔
      List.lookup "customRpc" (Json.fields (statusJson env (strftimeGm t))) =
        some (.jbool true)) ∧
    List.lookup "apiKey" (Json.fields (statusJson env (strftimeGm t))) =
      some (.jbool true) ∧
    List.lookup "status" (Json.fields (statusJson env (strftimeGm t))) =
      some (.jstr "operational") ∧
    List.lookup "network" (Json.fields (statusJson env (strftimeGm t))) =
      some (.jstr "mainnet-beta") := by
  refine ⟨rfl, rfl, ?_, ?_, rfl, rfl⟩
  · cases h : env "INSTANT_NODES_RPC_URL" <;>
      simp [statusJson, Json.fields, List.lookup, h]
  · simp [statusJson, Json.fields, List.lookup]

/-- C5: the API dispatcher emits the `application/json` content type as
its very first event on every branch, before any status; and every
`/api/` path other than the three exact endpoints gets 404 with body
`\x7b"error": "API endpoint not found"\x7d`. -/
theorem c5_dispatcher (env : Env) (t : Tm) (path : String) :
    (handle_api env t path).head? =
      some (Ev.header "Content-type" "application/json") ∧
    (startswith path "/api/" = true → path ≠ "/api/health" →
      path ≠ "/api/solana/status" → path ≠ "/api/agents" →
      handle_api env t path =
        [Ev.header "Content-type" "application/json", Ev.status 404,
         Ev.endHeaders, Ev.write (Json.dumps apiNotFoundJson)]) ∧
    Json.dumps apiNotFoundJson = "\x7b\"error\": \"API endpoint not found\"\x7d" := by
  refine ⟨rfl, ?_, rfl⟩
  intro _ h1 h2 h3
  simp only [handle_api, h1, h2, h3, if_false, if_neg]

/-- Witness for C5 at the concrete request `/api/does-not-exist`. -/
theorem c5_dispatcher_witness :
    handle_api (fun _ => false) ⟨2025, 1, 1, 0, 0, 0⟩ "/api/does-not-exist" =
      [Ev.header "Content-type" "application/json", Ev.status 404,
       Ev.endHeaders, Ev.write (Json.dumps apiNotFoundJson)] :=
  (c5_dispatcher (fun _ => false) ⟨2025, 1, 1, 0, 0, 0⟩ "/api/does-not-exist").2.1
    rfl (by decide) (by decide) (by decide)

/-- C6: `GET /api/agents` responds 200 with a JSON array of exactly the
two hardcoded records, each containing the keys `id`, `name`, `type`,
`status`, `active`, `wallets` and `metrics`, and each record's
`metrics.successRate` lies in the closed interval [0,1]. -/
theorem c6_agents (env : Env) (t : Tm) :
    handle_api env t "/api/agents" =
      [Ev.header "Content-type" "application/json", Ev.status 200, Ev.endHeaders,
       Ev.write (Json.dumps (.jarr (agentsList (strftimeGm t))))] ∧
    agentsList (strftimeGm t) = [agent1 (strftimeGm t), agent2 (strftimeGm t)] ∧
    (agentsList (strftimeGm t)).length = 2 ∧
    (["id", "name", "type", "status", "active", "wallets", "metrics"].all
      (fun k =>
        (List.lookup k (Json.fields (agent1 (strftimeGm t)))).isSome &&
        (List.lookup k (Json.fields (agent2 (strftimeGm t)))).isSome)) = true ∧
    successRateOf (agent1 (strftimeGm t)) = some (92 / 100) ∧
    successRateOf (agent2 (strftimeGm t)) = some (88 / 100) ∧
    (0 : ℚ) ≤ 92 / 100 ∧ (92 : ℚ) / 100 ≤ 1 ∧
    (0 : ℚ) ≤ 88 / 100 ∧ (88 : ℚ) / 100 ≤ 1 := by
  refine ⟨rfl, rfl, rfl, rfl, rfl, rfl, by norm_num, by norm_num, by norm_num,
    by norm_num⟩

/-- C7: every emitted timestamp (the status `timestamp` field and each
agent's `metrics.lastExecution`) is the current UTC time rendered as
`YYYY-MM-DDTHH:MM:SS.000Z`, the sub-second digits being the literal
characters `000`. -/
theorem c7_timestamps (env : Env) (t : Tm) :
    handle_api env t "/api/solana/status" =
      [Ev.header "Content-type" "application/json", Ev.status 200, Ev.endHeaders,
       Ev.write (Json.dumps (statusJson env (strftimeGm t)))] ∧
    List.lookup "timestamp" (Json.fields (statusJson env (strftimeGm t))) =
      some (.jstr (strftimeGm t)) ∧
    metricsField (agent1 (strftimeGm t)) "lastExecution" =
      some (.jstr (strftimeGm t)) ∧
    metricsField (agent2 (strftimeGm t)) "lastExecution" =
      some (.jstr (strftimeGm t)) ∧
    strftimeGm t =
      pad4 t.year ++ "-" ++ pad2 t.month ++ "-" ++ pad2 t.day ++ "T" ++
        pad2 t.hour ++ ":" ++ pad2 t.minute ++ ":" ++ pad2 t.sec ++ ".000Z" ∧
    (∃ front, strftimeGm t = front ++ ".000Z") :=
  ⟨rfl, rfl, rfl, rfl, rfl, ⟨_, rfl⟩⟩

/-- C8 counterexample: a filesystem error other than not-found (here an
`ioError` such as `PermissionError` when opening `./locked`) makes the
exception escape `do_GET` uncaught; no HTTP response events are produced,
contradicting the claim that the handler still responds. -/
theorem c8_counterexample :
    do_GET (fun p => if p = "./locked" then FileResult.ioError else FileResult.notFound)
      (fun _ => false) ⟨2025, 1, 1, 0, 0, 0⟩ "/locked" = Except.error PyErr.ioError ∧
    ∀ evs, do_GET (fun p => if p = "./locked" then FileResult.ioError
                            else FileResult.notFound)
      (fun _ => false) ⟨2025, 1, 1, 0, 0, 0⟩ "/locked" ≠ Except.ok evs := by
  refine ⟨rfl, ?_⟩
  intro evs h
  exact Except.noConfusion h

/-- C8 amended: only `FileNotFoundError` is handled.  A filesystem error
other than not-found raised while opening the requested asset, or while
opening the fallback `./index.html`, escapes `do_GET` uncaught and no
response is produced; when neither open raises such an error, the handler
always produces a response. -/
theorem c8_amended (fs : FS) (env : Env) (t : Tm) (raw : String)
    (hna : startswith (urlparsePath raw) "/api/" = false) :
    (fs (openTarget (rewriteRoot (urlparsePath raw))) = FileResult.ioError →
      do_GET fs env t raw = Except.error PyErr.ioError) ∧
    (fs (openTarget (rewriteRoot (urlparsePath raw))) = FileResult.notFound →
      fs "./index.html" = FileResult.ioError →
      do_GET fs env t raw = Except.error PyErr.ioError) ∧
    (fs (openTarget (rewriteRoot (urlparsePath raw))) ≠ FileResult.ioError →
      fs "./index.html" ≠ FileResult.ioError →
      ∃ evs, do_GET fs env t raw = Except.ok evs) := by
  refine ⟨?_, ?_, ?_⟩
  · intro h
    simp only [do_GET, hna, Bool.false_eq_true, if_false, h]
  · intro h1 h2
    simp only [do_GET, hna, Bool.false_eq_true, if_false, h1, h2]
  · intro h1 h2
    cases hmain : fs (openTarget (rewriteRoot (urlparsePath raw))) with
    | found c =>
        have hres : do_GET fs env t raw = Except.ok
            [Ev.status 200,
             Ev.header "Content-type" (contentTypeFor (rewriteRoot (urlparsePath raw))),
             Ev.endHeaders, Ev.write c] := by
          simp only [do_GET, hna, Bool.false_eq_true, if_false, hmain]
        exact ⟨_, hres⟩
    | ioError => exact absurd hmain h1
    | notFound =>
        cases hidx : fs "./index.html" with
        | found c =>
            have hres : do_GET fs env t raw = Except.ok
                [Ev.status 200, Ev.header "Content-type" "text/html",
                 Ev.endHeaders, Ev.write c] := by
              simp only [do_GET, hna, Bool.false_eq_true, if_false, hmain, hidx]
            exact ⟨_, hres⟩
        | ioError => exact absurd hidx h2
        | notFound =>
            have hres : do_GET fs env t raw = Except.ok
                [Ev.status 404, Ev.header "Content-type" "text/html",
                 Ev.endHeaders, Ev.write "404 Not Found"] := by
              simp only [do_GET, hna, Bool.false_eq_true, if_false, hmain, hidx]
            exact ⟨_, hres⟩

/-- Witness for the amended C8 at the concrete request `/locked.bin`. -/
theorem c8_amended_witness :
    do_GET (fun p => if p = "./locked.bin" then FileResult.ioError
                     else FileResult.notFound)
      (fun _ => false) ⟨2025, 1, 1, 0, 0, 0⟩ "/locked.bin" =
      Except.error PyErr.ioError :=
  (c8_amended (fun p => if p = "./locked.bin" then FileResult.ioError
                        else FileResult.notFound)
    (fun _ => false) ⟨2025, 1, 1, 0, 0, 0⟩ "/locked.bin" rfl).1 rfl

/-- C9: two-run determinism.  With identical filesystem and environment,
two evaluations of the handler at clock readings `t1` and `t2` yield
identical responses, except on the two timestamped endpoints
`/api/solana/status` and `/api/agents`, where each run's response is the
same template instantiated at its own clock's formatted timestamp (so the
difference depends only on the clock). -/
theorem c9_determinism (fs : FS) (env : Env) (t1 t2 : Tm) (raw : String) :
    do_GET fs env t1 raw = do_GET fs env t2 raw ∨
    (urlparsePath raw = "/api/solana/status" ∧
      do_GET fs env t1 raw = Except.ok
        [Ev.header "Content-type" "application/json", Ev.status 200, Ev.endHeaders,
         Ev.write (Json.dumps (statusJson env (strftimeGm t1)))] ∧
      do_GET fs env t2 raw = Except.ok
        [Ev.header "Content-type" "application/json", Ev.status 200, Ev.endHeaders,
         Ev.write (Json.dumps (statusJson env (strftimeGm t2)))]) ∨
    (urlparsePath raw = "/api/agents" ∧
      do_GET fs env t1 raw = Except.ok
        [Ev.header "Content-type" "application/json", Ev.status 200, Ev.endHeaders,
         Ev.write (Json.dumps (.jarr (agentsList (strftimeGm t1))))] ∧
      do_GET fs env t2 raw = Except.ok
        [Ev.header "Content-type" "application/json", Ev.status 200, Ev.endHeaders,
         Ev.write (Json.dumps (.jarr (agentsList (strftimeGm t2))))]) := by
  by_cases hapi : startswith (urlparsePath raw) "/api/" = true
  · by_cases h1 : urlparsePath raw = "/api/health"
    · left
      simp [do_GET, handle_api, h1]
    · by_cases h2 : urlparsePath raw = "/api/solana/status"
      · right; left
        rw [h2] at hapi
        refine ⟨h2, ?_, ?_⟩ <;> simp [do_GET, handle_api, h2, hapi]
      · by_cases h3 : urlparsePath raw = "/api/agents"
        · right; right
          rw [h3] at hapi
          refine ⟨h3, ?_, ?_⟩ <;> simp [do_GET, handle_api, h3, hapi]
        · left
          simp only [do_GET, handle_api, h1, h2, h3, if_false, if_neg]
  · left
    simp only [do_GET, Bool.not_eq_true] at hapi ⊢
    simp only [hapi, Bool.false_eq_true, if_false]

/-- C10: literal path resolution with no containment check.  The static
handler consults the filesystem only at the literal concatenation
`'.' + path` (and the fixed fallback `./index.html`), with no
normalization and no rejection of `..` segments; the target of the
request `/../secret.txt` resolves outside the served root, and a file
there is served verbatim. -/
theorem c10_traversal :
    (∀ (fs1 fs2 : FS) (env : Env) (t : Tm) (raw : String),
      startswith (urlparsePath raw) "/api/" = false →
      fs1 (openTarget (rewriteRoot (urlparsePath raw))) =
        fs2 (openTarget (rewriteRoot (urlparsePath raw))) →
      fs1 "./index.html" = fs2 "./index.html" →
      do_GET fs1 env t raw = do_GET fs2 env t raw) ∧
    (∀ p, openTarget p = "." ++ p) ∧
    escapesRoot (openTarget (rewriteRoot (urlparsePath "/../secret.txt"))) = true ∧
    (∀ (env : Env) (t : Tm),
      do_GET (fun q => if q = "./../secret.txt" then FileResult.found "TOP SECRET"
                       else FileResult.notFound) env t "/../secret.txt" =
        Except.ok [Ev.status 200,
          Ev.header "Content-type" "application/octet-stream",
          Ev.endHeaders, Ev.write "TOP SECRET"]) := by
  refine ⟨?_, fun p => rfl, rfl, fun env t => rfl⟩
  intro fs1 fs2 env t raw hna hmain hidx
  simp only [do_GET, hna, Bool.false_eq_true, if_false, hmain, hidx]

/-- Witness for C10 at the concrete request `/a.html`, with two
filesystems agreeing at `./a.html` and `./index.html` but differing
elsewhere. -/
theorem c10_traversal_witness :
    do_GET (fun q => if q = "./a.html" then FileResult.found "A"
                     else FileResult.notFound)
      (fun _ => false) ⟨2025, 1, 1, 0, 0, 0⟩ "/a.html" =
    do_GET (fun q => if q = "./a.html" then FileResult.found "A"
                     else if q = "./other" then FileResult.found "B"
                     else FileResult.notFound)
      (fun _ => false) ⟨2025, 1, 1, 0, 0, 0⟩ "/a.html" :=
  c10_traversal.1
    (fun q => if q = "./a.html" then FileResult.found "A" else FileResult.notFound)
    (fun q => if q = "./a.html" then FileResult.found "A"
              else if q = "./other" then FileResult.found "B"
              else FileResult.notFound)
    (fun _ => false) ⟨2025, 1, 1, 0, 0, 0⟩ "/a.html" rfl rfl rfl
